import Mathlib

/-!
Verification of the reaction-role cog (src/cogs/reactionrole.py).

The registry state is the contents of the file reaction_roles.json: a JSON
object keyed by guild id strings, each value an object keyed by message id
strings, each value a list of button entries with fields role_id, emoji and
colour. Python dicts preserve insertion order and hold each key once, so a
dict is embedded as an association list with unique keys; dict indexing,
membership and assignment are embedded below with the matching first-match
semantics. Fallible operations (json.load on an unparsable file, getattr on
a missing ButtonStyle member, int() on a non-numeric string) return
Except/Option values in place of raised exceptions.
-/

/-- Button display styles of the client library (discord.ButtonStyle):
primary, secondary, success, danger and link; the colour aliases red, green,
blurple, grey, gray and url name these same five members. -/
inductive ButtonStyle
  | primary
  | secondary
  | success
  | danger
  | link
deriving DecidableEq, Repr

/-- getattr(discord.ButtonStyle, name): the member named by the string, with
none modelling the AttributeError raised when the name is not a member. -/
def getattr_ButtonStyle (name : String) : Option ButtonStyle :=
  if name = "primary" ∨ name = "blurple" then some ButtonStyle.primary
  else if name = "secondary" ∨ name = "grey" ∨ name = "gray" then some ButtonStyle.secondary
  else if name = "success" ∨ name = "green" then some ButtonStyle.success
  else if name = "danger" ∨ name = "red" then some ButtonStyle.danger
  else if name = "link" ∨ name = "url" then some ButtonStyle.link
  else none

/-- One saved button entry: the dictionary the reaction_role command passes to
save_config, holding the role id, the emoji and the colour string. -/
structure ButtonCfg where
  role_id : Nat
  emoji : String
  colour : String
deriving DecidableEq, Repr

/-- The value of one guild key in the configuration: message id strings to
button entry lists, in insertion order. -/
abbrev MsgMap := List (String × List ButtonCfg)

/-- The parsed configuration: guild id strings to message maps, in insertion
order. -/
abbrev Config := List (String × MsgMap)

/-- The reaction_roles.json file: absent, present but not parsable as JSON, or
holding a parsed configuration. -/
inductive FileState
  | absent
  | corrupt
  | stored (config : Config)
deriving DecidableEq, Repr

/-- Python dict indexing d[k]: the value at the key. A Python dict holds each
key at most once; on the association-list embedding this is the first match. -/
def dictGet {α : Type} : List (String × α) → String → Option α
  | [], _ => none
  | p :: rest, k => if p.1 = k then some p.2 else dictGet rest k

/-- The Python membership test `k in d`. -/
def dictContains {α : Type} (l : List (String × α)) (k : String) : Bool :=
  (dictGet l k).isSome

/-- Python dict assignment d[k] = v: replaces the value at an existing key in
place, appends a new key at the end. -/
def dictSet {α : Type} : List (String × α) → String → α → List (String × α)
  | [], k, v => [(k, v)]
  | p :: rest, k, v => if p.1 = k then (k, v) :: rest else p :: dictSet rest k v

/-- The pattern `if k not in d: d[k] = dflt` used twice in save_config. -/
def dictEnsure {α : Type} (l : List (String × α)) (k : String) (dflt : α) :
    List (String × α) :=
  if dictContains l k then l else l ++ [(k, dflt)]

/-- The update ReactionRole.save_config performs on the parsed configuration:
ensure the guild key (default empty dict), ensure the message key (default
empty list), then append the button entry to the list at those keys. -/
def save_step (g m : String) (b : ButtonCfg) (config : Config) : Config :=
  let config1 := dictEnsure config g []
  let msgs1 := dictEnsure ((dictGet config1 g).getD []) m []
  let btns := (dictGet msgs1 m).getD []
  dictSet config1 g (dictSet msgs1 m (btns ++ [b]))

/-- ReactionRole.save_config(guild_id, message_id, button): json.load the file
if it exists (the parse exception of an unparsable file propagates, modelled
as error; an absent file starts from the empty dict), insert the button under
str(guild_id) and str(message_id), and rewrite the file with the result.
There is no duplicate check: the entry is appended unconditionally. -/
def ReactionRole.save_config (guild_id message_id : Nat) (button : ButtonCfg)
    (fs : FileState) : Except Unit FileState :=
  match fs with
  | FileState.absent =>
      Except.ok (FileState.stored (save_step (toString guild_id) (toString message_id) button []))
  | FileState.corrupt => Except.error ()
  | FileState.stored c =>
      Except.ok (FileState.stored (save_step (toString guild_id) (toString message_id) button c))

/-- json.load on the config file opened for reading: the parsed configuration,
or the parse exception (error) when the contents are not parsable; reading an
absent file also raises. -/
def json_load_file : FileState → Except Unit Config
  | FileState.absent => Except.error ()
  | FileState.corrupt => Except.error ()
  | FileState.stored c => Except.ok c

/-- The file states the config file passes through while save_config writes:
open(CONFIG_FILE, "w") first truncates the file in place, and a truncated or
partially written file is not parsable JSON; json.dump then completes the new
contents. No temporary file and no rename are involved. -/
def save_write_trace (config : Config) : List FileState :=
  [FileState.corrupt, FileState.stored config]

/-- A ReactionRoleButton: style, emoji, custom_id and the role it toggles. -/
structure ReactionRoleButton where
  style : ButtonStyle
  emoji : String
  custom_id : String
  role_id : Nat
deriving DecidableEq, Repr

/-- ReactionRoleButton.__init__(role_id, emoji, colour): the button is built
with custom_id = str(role_id). -/
def ReactionRoleButton.init (role_id : Nat) (emoji : String) (colour : ButtonStyle) :
    ReactionRoleButton :=
  { style := colour, emoji := emoji, custom_id := toString role_id, role_id := role_id }

/-- Python int(s) applied to a message id key: the decimal value of a digit
string, none modelling the ValueError raised on a non-numeric string. -/
def int_ofKey (s : String) : Option Nat :=
  if s.data ≠ [] ∧ s.data.all (fun c => c.isDigit) then
    some (s.data.foldl (fun a c => 10 * a + (c.toNat - 48)) 0)
  else none

/-- One iteration of the inner loop of load_config: rebuild a button from a saved
entry. The emoji is read with .get (defaulting to the button emoji the command
also defaults to) and the colour string is resolved with getattr on
ButtonStyle, whose AttributeError propagates for an unrecognized name. -/
def load_button (b : ButtonCfg) : Except Unit ReactionRoleButton :=
  match getattr_ButtonStyle b.colour with
  | some st => Except.ok (ReactionRoleButton.init b.role_id b.emoji st)
  | none => Except.error ()

/-- the inner loop of load_config over the saved entries of one message, in order. -/
def load_buttons : List ButtonCfg → Except Unit (List ReactionRoleButton)
  | [] => Except.ok []
  | b :: rest => do
    let rb ← load_button b
    let rbs ← load_buttons rest
    Except.ok (rb :: rbs)

/-- One message entry of load_config: build the buttons of the view, then register
the view under int(message_id); int raises on a non-numeric key. -/
def load_msg (mid : String) (btns : List ButtonCfg) :
    Except Unit (Nat × List ReactionRoleButton) := do
  let rbs ← load_buttons btns
  match int_ofKey mid with
  | some n => Except.ok (n, rbs)
  | none => Except.error ()

/-- the loop of load_config over the messages of one guild, in order. -/
def load_msgs : MsgMap → Except Unit (List (Nat × List ReactionRoleButton))
  | [] => Except.ok []
  | m :: rest => do
    let o ← load_msg m.1 m.2
    let os ← load_msgs rest
    Except.ok (o :: os)

/-- the outer loop of load_config over the guilds, in order; the registrations of
all guilds accumulate in one sequence since bot.add_view keys only on the
message id. -/
def load_guilds : Config → Except Unit (List (Nat × List ReactionRoleButton))
  | [] => Except.ok []
  | g :: rest => do
    let os ← load_msgs g.2
    let rest2 ← load_guilds rest
    Except.ok (os ++ rest2)

/-- ReactionRole.load_config: nothing happens when the file is absent (no
views registered); otherwise the file is parsed (the parse exception of an
unparsable file propagates) and one view per saved message is registered. -/
def ReactionRole.load_config (fs : FileState) :
    Except Unit (List (Nat × List ReactionRoleButton)) :=
  match fs with
  | FileState.absent => Except.ok []
  | FileState.corrupt => Except.error ()
  | FileState.stored config => load_guilds config

/-- ReactionRole.__init__ calls self.load_config() with no exception handler:
a load failure propagates out of the constructor and cog startup fails. -/
def ReactionRole.cog_init (fs : FileState) :
    Except Unit (List (Nat × List ReactionRoleButton)) :=
  ReactionRole.load_config fs

/-- The two outcomes of the toggle decision of the button callback. -/
inductive ToggleDecision
  | Grant
  | Revoke
deriving DecidableEq, Repr

/-- The membership test of ReactionRoleButton.callback: `if role in
user.roles` removes the role (Revoke) when it is among the roles of the user and
adds it (Grant) otherwise; roles are identified by their ids. -/
def callback_decide (role_id : Nat) (user_roles : List Nat) : ToggleDecision :=
  if role_id ∈ user_roles then ToggleDecision.Revoke else ToggleDecision.Grant

/-- The persistence step of the reaction_role attach command: it passes the
dictionary with the role id, the emoji and the raw colour string given by the
operator (or one of "red", "green", "blurple", "grey" when omitted) to
save_config, without validating the colour against ButtonStyle. -/
def reaction_role_save (guild_id message_id role_id : Nat) (emoji colour : String)
    (fs : FileState) : Except Unit FileState :=
  ReactionRole.save_config guild_id message_id
    { role_id := role_id, emoji := emoji, colour := colour } fs

/-- A sequence of save_config calls threaded through the file state, each call
given as (guild_id, message_id, button). -/
def addAll : List (Nat × Nat × ButtonCfg) → FileState → Except Unit FileState
  | [], fs => Except.ok fs
  | c :: rest, fs => do
    let fs1 ← ReactionRole.save_config c.1 c.2.1 c.2.2 fs
    addAll rest fs1

/-- The configuration a sequence of save_config calls builds from a given
parsed configuration. -/
def buildConfig : List (Nat × Nat × ButtonCfg) → Config → Config
  | [], c => c
  | e :: rest, c => buildConfig rest (save_step (toString e.1) (toString e.2.1) e.2.2 c)

/-- The button list the configuration holds for a guild key and message key,
empty when either key is absent. -/
def lookupList (config : Config) (g m : String) : List ButtonCfg :=
  (dictGet ((dictGet config g).getD []) m).getD []

/-- Modelled from the spec: the Registry lookup operation of the spec is not
present in the source, which only reads the configuration wholesale in
load_config; per the spec it is a pure read returning the binding stored for a
triple. On the data layout of the source this is the first saved entry with the
given role id (the trigger, since custom_id = str(role_id)) under the guild
and message keys. -/
def lookup (config : Config) (guild_id message_id trigger_role : Nat) : Option ButtonCfg :=
  (lookupList config (toString guild_id) (toString message_id)).find?
    (fun b => b.role_id == trigger_role)

/-- The uniqueness invariant claimed for the registry: within the entry list
of every guild and message pair, no two buttons share a trigger (role id,
equivalently custom_id). -/
def triplesUnique (config : Config) : Bool :=
  config.all (fun g => g.2.all (fun m => decide (m.2.map (fun b => b.role_id)).Nodup))

/-- The decimal value of a digit character, used to read back the characters
that Nat.digitChar produces. -/
def charVal (c : Char) : Nat := c.toNat - 48

/-- The value of a most-significant-first digit character list. -/
def digitsVal (l : List Char) : Nat := l.foldl (fun a c => 10 * a + charVal c) 0

lemma charVal_digitChar (d : Nat) (h : d < 10) : charVal (Nat.digitChar d) = d := by
  interval_cases d <;> rfl

lemma digitsVal_append_single (l : List Char) (c : Char) :
    digitsVal (l ++ [c]) = 10 * digitsVal l + charVal c := by
  simp [digitsVal, List.foldl_append]

lemma toDigitsCore_acc (fuel : Nat) : ∀ (n : Nat) (ds : List Char),
    Nat.toDigitsCore 10 fuel n ds = Nat.toDigitsCore 10 fuel n [] ++ ds := by
  induction fuel with
  | zero => intro n ds; simp [Nat.toDigitsCore]
  | succ f ih =>
    intro n ds
    simp only [Nat.toDigitsCore]
    by_cases h : n / 10 = 0
    · simp [h]
    · rw [if_neg h, if_neg h, ih (n / 10) (Nat.digitChar (n % 10) :: ds),
        ih (n / 10) [Nat.digitChar (n % 10)], List.append_assoc, List.singleton_append]

lemma digitsVal_toDigitsCore (fuel : Nat) : ∀ n : Nat, n < fuel →
    digitsVal (Nat.toDigitsCore 10 fuel n []) = n := by
  induction fuel with
  | zero => intro n h; exact absurd h (Nat.not_lt_zero n)
  | succ f ih =>
    intro n h
    simp only [Nat.toDigitsCore]
    by_cases h0 : n / 10 = 0
    · have hn : n < 10 := (Nat.div_eq_zero_iff (by norm_num)).mp h0
      rw [if_pos h0]
      have : digitsVal [Nat.digitChar (n % 10)] = charVal (Nat.digitChar (n % 10)) := by
        simp [digitsVal, charVal]
      rw [this, Nat.mod_eq_of_lt hn, charVal_digitChar n hn]
    · have hge : 0 < n := by
        rcases Nat.eq_zero_or_pos n with h' | h'
        · exact absurd (by simp [h']) h0
        · exact h'
      have hlt : n / 10 < f := by
        have h1 : n / 10 < n := Nat.div_lt_self hge (by norm_num)
        omega
      rw [if_neg h0, toDigitsCore_acc, digitsVal_append_single, ih (n / 10) hlt,
        charVal_digitChar (n % 10) (Nat.mod_lt n (by norm_num))]
      omega

lemma digitsVal_toDigits (n : Nat) : digitsVal (Nat.toDigits 10 n) = n :=
  digitsVal_toDigitsCore (n + 1) n (Nat.lt_succ_self n)

/-- str() of two distinct numeric ids gives two distinct key strings. -/
lemma toString_nat_injective : Function.Injective (fun n : Nat => toString n) := by
  intro a b h
  have hd : Nat.toDigits 10 a = Nat.toDigits 10 b :=
    congrArg (fun s : String => s.data) h
  have := congrArg digitsVal hd
  rwa [digitsVal_toDigits, digitsVal_toDigits] at this

lemma dictGet_dictSet_self {α : Type} (l : List (String × α)) (k : String) (v : α) :
    dictGet (dictSet l k v) k = some v := by
  induction l with
  | nil => simp [dictSet, dictGet]
  | cons p rest ih =>
    by_cases h : p.1 = k
    · simp [dictSet, h, dictGet]
    · simp [dictSet, h, dictGet, ih]

lemma dictGet_dictSet_ne {α : Type} (l : List (String × α)) (k k' : String) (v : α)
    (h : k' ≠ k) : dictGet (dictSet l k v) k' = dictGet l k' := by
  induction l with
  | nil =>
    simp only [dictSet, dictGet]
    rw [if_neg (Ne.symm h)]
  | cons p rest ih =>
    by_cases hp : p.1 = k
    · simp only [dictSet, if_pos hp, dictGet]
      rw [if_neg (Ne.symm h), if_neg (by rw [hp]; exact Ne.symm h)]
    · simp only [dictSet, if_neg hp, dictGet]
      by_cases hp' : p.1 = k'
      · rw [if_pos hp', if_pos hp']
      · rw [if_neg hp', if_neg hp', ih]

lemma dictGet_append_single_none {α : Type} (l : List (String × α)) (k : String) (d : α)
    (h : dictGet l k = none) : dictGet (l ++ [(k, d)]) k = some d := by
  induction l with
  | nil => simp [dictGet]
  | cons p rest ih =>
    by_cases hp : p.1 = k
    · rw [dictGet, if_pos hp] at h; exact absurd h (by simp)
    · rw [dictGet, if_neg hp] at h
      rw [List.cons_append, dictGet, if_neg hp]
      exact ih h

lemma dictGet_append_single_ne {α : Type} (l : List (String × α)) (k k' : String) (d : α)
    (h : k' ≠ k) : dictGet (l ++ [(k, d)]) k' = dictGet l k' := by
  induction l with
  | nil =>
    simp only [List.nil_append, dictGet]
    rw [if_neg (Ne.symm h)]
  | cons p rest ih =>
    by_cases hp : p.1 = k'
    · rw [List.cons_append, dictGet, if_pos hp, dictGet, if_pos hp]
    · rw [List.cons_append, dictGet, if_neg hp, dictGet, if_neg hp, ih]

lemma dictGet_dictEnsure_self {α : Type} (l : List (String × α)) (k : String) (d : α) :
    dictGet (dictEnsure l k d) k = some ((dictGet l k).getD d) := by
  unfold dictEnsure dictContains
  by_cases h : (dictGet l k).isSome
  · rw [if_pos h]
    obtain ⟨x, hx⟩ := Option.isSome_iff_exists.mp h
    simp [hx]
  · have hn : dictGet l k = none := Option.not_isSome_iff_eq_none.mp h
    rw [if_neg (by simp [hn]), dictGet_append_single_none l k d hn, hn]
    rfl

lemma dictGet_dictEnsure_ne {α : Type} (l : List (String × α)) (k k' : String) (d : α)
    (h : k' ≠ k) : dictGet (dictEnsure l k d) k' = dictGet l k' := by
  unfold dictEnsure
  by_cases hc : dictContains l k
  · rw [if_pos hc]
  · rw [if_neg hc, dictGet_append_single_ne l k k' d h]

/-- The effect of one save_config update on the entry list at each key pair:
the list at the written guild and message keys gains the button at its end,
every other key pair keeps exactly its previous list. -/
lemma lookupList_save_step (c : Config) (g m g' m' : String) (b : ButtonCfg) :
    lookupList (save_step g m b c) g' m' =
      if g' = g ∧ m' = m then lookupList c g' m' ++ [b] else lookupList c g' m' := by
  unfold save_step lookupList
  have hc1 : dictGet (dictEnsure c g ([] : MsgMap)) g = some ((dictGet c g).getD []) :=
    dictGet_dictEnsure_self c g []
  by_cases hg : g' = g
  · subst hg
    rw [dictGet_dictSet_self, Option.getD_some]
    by_cases hm : m' = m
    · subst hm
      rw [if_pos ⟨rfl, rfl⟩]
      rw [dictGet_dictSet_self, Option.getD_some, dictGet_dictEnsure_self, hc1]
      simp
    · rw [if_neg (fun hand => hm hand.2)]
      rw [dictGet_dictSet_ne _ _ _ _ hm, dictGet_dictEnsure_ne _ _ _ _ hm, hc1]
      simp
  · rw [if_neg (fun hand => hg hand.1)]
    rw [dictGet_dictSet_ne _ _ _ _ hg]
    rw [dictGet_dictEnsure_ne _ _ _ _ hg]

/-- The entry list a sequence of save_config updates leaves at each key pair:
the previous list followed by the buttons of exactly the calls addressed to
that key pair, in call order. -/
lemma lookupList_buildConfig (calls : List (Nat × Nat × ButtonCfg)) (c : Config)
    (g' m' : String) :
    lookupList (buildConfig calls c) g' m' =
      lookupList c g' m' ++
        (calls.filter (fun e => toString e.1 == g' && toString e.2.1 == m')).map
          (fun e => e.2.2) := by
  induction calls generalizing c with
  | nil => simp [buildConfig]
  | cons e rest ih =>
    rw [buildConfig, ih, lookupList_save_step]
    by_cases h : g' = toString e.1 ∧ m' = toString e.2.1
    · rw [if_pos h, List.filter_cons_of_pos (by simp [h.1, h.2]), List.map_cons,
        List.append_assoc, List.singleton_append]
    · rw [if_neg h, List.filter_cons_of_neg (by
        simp only [Bool.and_eq_true, beq_iff_eq]
        intro hc
        exact h ⟨hc.1.symm, hc.2.symm⟩)]

lemma find?_eq_of_unique {α : Type} {l : List α} {p : α → Bool} {a : α}
    (ha : a ∈ l) (hpa : p a = true) (huniq : ∀ x ∈ l, p x = true → x = a) :
    l.find? p = some a := by
  induction l with
  | nil => cases ha
  | cons x rest ih =>
    by_cases hx : p x = true
    · rw [List.find?_cons_of_pos _ hx, huniq x (List.mem_cons_self x rest) hx]
    · rw [List.find?_cons_of_neg _ hx]
      have ha' : a ∈ rest := by
        cases ha with
        | head => exact absurd hpa hx
        | tail _ htl => exact htl
      exact ih ha' (fun y hy hpy => huniq y (List.mem_cons_of_mem x hy) hpy)

lemma addAll_stored (calls : List (Nat × Nat × ButtonCfg)) : ∀ c : Config,
    addAll calls (FileState.stored c) =
      Except.ok (FileState.stored (buildConfig calls c)) := by
  induction calls with
  | nil => intro c; rfl
  | cons e rest ih =>
    intro c
    show addAll rest (FileState.stored (save_step (toString e.1) (toString e.2.1) e.2.2 c)) =
      Except.ok (FileState.stored (buildConfig rest (save_step (toString e.1) (toString e.2.1) e.2.2 c)))
    exact ih (save_step (toString e.1) (toString e.2.1) e.2.2 c)

/-- Every saved colour string in the configuration names a ButtonStyle
member, so getattr succeeds on it. -/
def colours_ok (c : Config) : Bool :=
  c.all (fun g => g.2.all (fun m => m.2.all (fun b => (getattr_ButtonStyle b.colour).isSome)))

/-- Every message key in the configuration is a numeric string accepted by
int(). -/
def keys_ok (c : Config) : Bool :=
  c.all (fun g => g.2.all (fun m => (int_ofKey m.1).isSome))

/-- A rebuilt button carries the same role id and the same emoji as the saved
entry, and the style named by the saved colour string. -/
def buttonMatches (b : ButtonCfg) (rb : ReactionRoleButton) : Prop :=
  rb.role_id = b.role_id ∧ rb.emoji = b.emoji ∧ getattr_ButtonStyle b.colour = some rb.style

/-- A registered view corresponds to a saved message entry: it is keyed by
the numeric value of the message key, and its buttons match the saved
entries pointwise, in order. -/
def msgMatches (m : String × List ButtonCfg) (o : Nat × List ReactionRoleButton) : Prop :=
  int_ofKey m.1 = some o.1 ∧ List.Forall₂ buttonMatches m.2 o.2

lemma load_buttons_ok (btns : List ButtonCfg)
    (h : ∀ b ∈ btns, (getattr_ButtonStyle b.colour).isSome = true) :
    ∃ rbs, load_buttons btns = Except.ok rbs ∧ List.Forall₂ buttonMatches btns rbs := by
  induction btns with
  | nil => exact ⟨[], rfl, List.Forall₂.nil⟩
  | cons b rest ih =>
    obtain ⟨st, hst⟩ := Option.isSome_iff_exists.mp (h b (List.mem_cons_self b rest))
    obtain ⟨rbs, hrbs, hf⟩ := ih (fun x hx => h x (List.mem_cons_of_mem b hx))
    refine ⟨ReactionRoleButton.init b.role_id b.emoji st :: rbs, ?_, ?_⟩
    · simp only [load_buttons, load_button, hst, hrbs, Bind.bind, Except.bind]
    · exact List.Forall₂.cons ⟨rfl, rfl, hst⟩ hf

lemma load_msgs_ok (ms : MsgMap)
    (hc : ∀ m ∈ ms, ∀ b ∈ m.2, (getattr_ButtonStyle b.colour).isSome = true)
    (hk : ∀ m ∈ ms, (int_ofKey m.1).isSome = true) :
    ∃ os, load_msgs ms = Except.ok os ∧ List.Forall₂ msgMatches ms os := by
  induction ms with
  | nil => exact ⟨[], rfl, List.Forall₂.nil⟩
  | cons m rest ih =>
    obtain ⟨rbs, hrbs, hfb⟩ :=
      load_buttons_ok m.2 (hc m (List.mem_cons_self m rest))
    obtain ⟨n, hn⟩ := Option.isSome_iff_exists.mp (hk m (List.mem_cons_self m rest))
    obtain ⟨os, hos, hfo⟩ := ih
      (fun x hx => hc x (List.mem_cons_of_mem m hx))
      (fun x hx => hk x (List.mem_cons_of_mem m hx))
    refine ⟨(n, rbs) :: os, ?_, ?_⟩
    · simp only [load_msgs, load_msg, hrbs, hn, hos, Bind.bind, Except.bind]
    · exact List.Forall₂.cons ⟨hn, hfb⟩ hfo

lemma load_guilds_ok (c : Config)
    (hc : colours_ok c = true) (hk : keys_ok c = true) :
    ∃ out, load_guilds c = Except.ok out ∧
      List.Forall₂ msgMatches ((c.map (fun g => g.2)).flatten) out := by
  induction c with
  | nil => exact ⟨[], rfl, List.Forall₂.nil⟩
  | cons g rest ih =>
    rw [colours_ok, List.all_cons, Bool.and_eq_true] at hc
    rw [keys_ok, List.all_cons, Bool.and_eq_true] at hk
    obtain ⟨os, hos, hfo⟩ := load_msgs_ok g.2
      (fun m hm b hb => by
        have h1 := (List.all_eq_true.mp hc.1) m hm
        exact (List.all_eq_true.mp h1) b hb)
      (fun m hm => (List.all_eq_true.mp hk.1) m hm)
    obtain ⟨out, hout, hfout⟩ := ih hc.2 hk.2
    refine ⟨os ++ out, ?_, ?_⟩
    · simp only [load_guilds, hos, hout, Bind.bind, Except.bind]
    · rw [List.map_cons, List.flatten_cons]
      exact List.rel_append hfo hfout

/-- C1: the claim fails on the code. At a state whose guild 1, message 2
list already holds an entry with trigger role 3, save_config of a binding
with that same (scope, anchor, trigger) triple does not fail with a
duplicate error: it succeeds and appends a second entry for the triple,
changing the prior state. -/
theorem C1_duplicate_add_appends :
    ReactionRole.save_config 1 2 { role_id := 3, emoji := "🔘", colour := "red" }
      (FileState.stored [("1", [("2", [{ role_id := 3, emoji := "🔘", colour := "red" }])])]) =
    Except.ok (FileState.stored
      [("1", [("2", [{ role_id := 3, emoji := "🔘", colour := "red" },
                     { role_id := 3, emoji := "🔘", colour := "red" }])])]) := by
  rfl

/-- C2: the claim fails on the code. From the empty state, two attaches of
role 3 to message 2 in guild 1 (the reaction_role command persists through
save_config) reach a state whose guild 1, message 2 list holds two entries
with the same trigger identifier, violating the claimed uniqueness
invariant on reachable states. -/
theorem C2_uniqueness_invariant_violated :
    (reaction_role_save 1 2 3 "🔘" "red" FileState.absent >>=
      reaction_role_save 1 2 3 "⭐" "green") =
    Except.ok (FileState.stored
      [("1", [("2", [{ role_id := 3, emoji := "🔘", colour := "red" },
                     { role_id := 3, emoji := "⭐", colour := "green" }])])]) ∧
    triplesUnique
      [("1", [("2", [{ role_id := 3, emoji := "🔘", colour := "red" },
                     { role_id := 3, emoji := "⭐", colour := "green" }])])] = false :=
  ⟨rfl, rfl⟩

/-- C3: the toggle decision of the button callback returns Revoke exactly
when the effect id is in the actor effect set and Grant otherwise; it is a
pure, deterministic function of its two inputs (a Lean function, so it
mutates nothing), and in particular it returns Grant on the empty set and
Revoke on the singleton of the effect id. -/
theorem C3_callback_decide_membership :
    (∀ (e : Nat) (s : List Nat),
      (callback_decide e s = ToggleDecision.Revoke ↔ e ∈ s) ∧
      (callback_decide e s = ToggleDecision.Grant ↔ e ∉ s)) ∧
    (∀ e : Nat, callback_decide e [] = ToggleDecision.Grant) ∧
    (∀ e : Nat, callback_decide e [e] = ToggleDecision.Revoke) := by
  refine ⟨fun e s => ?_, fun e => rfl, fun e => by simp [callback_decide]⟩
  by_cases h : e ∈ s <;> simp [callback_decide, h]

/-- C4 counterexample: with the state file present but unparsable, startup
does not treat the store as empty: load does not return the empty result, so
the claim that the caller recovers with an empty store and never crashes
fails. -/
theorem C4_counterexample_corrupt_crash :
    ReactionRole.cog_init FileState.corrupt ≠ Except.ok [] := by
  simp [ReactionRole.cog_init, ReactionRole.load_config]

/-- C4 amended: if the persisted state file exists but cannot be parsed,
the load fails (the parse exception of json.load propagates), and the cog
constructor calling it has no handler, so cog startup fails on a corrupt
state file instead of starting empty. -/
theorem C4_corrupt_load_fails :
    ReactionRole.load_config FileState.corrupt = Except.error () ∧
    ReactionRole.cog_init FileState.corrupt = Except.error () := ⟨rfl, rfl⟩

/-- C5 counterexample: while save_config rewrites the file from the prior
state (guild 1, message 2, role 3 only) to the new state with role 4
appended, the file passes through a truncated unparsable state that is
neither the prior nor the new contents, and a load at that point fails
rather than returning either complete state. -/
theorem C5_counterexample_interrupted_save :
    FileState.corrupt ∈ save_write_trace
      [("1", [("2", [{ role_id := 3, emoji := "🔘", colour := "red" },
                     { role_id := 4, emoji := "⭐", colour := "green" }])])] ∧
    FileState.corrupt ≠ FileState.stored
      [("1", [("2", [{ role_id := 3, emoji := "🔘", colour := "red" }])])] ∧
    FileState.corrupt ≠ FileState.stored
      [("1", [("2", [{ role_id := 3, emoji := "🔘", colour := "red" },
                     { role_id := 4, emoji := "⭐", colour := "green" }])])] ∧
    json_load_file FileState.corrupt = Except.error () := by
  refine ⟨by simp [save_write_trace], by simp, by simp, rfl⟩

/-- C5 amended: save_config does not write atomically: it truncates the
config file in place and then writes the new contents, with no temporary
file or rename, so the write passes through an unparsable intermediate
state; a load interrupted there fails with a parse error instead of
returning the prior or the new complete state. -/
theorem C5_save_not_atomic :
    ∀ config : Config,
      save_write_trace config = [FileState.corrupt, FileState.stored config] ∧
      json_load_file FileState.corrupt = Except.error () :=
  fun _ => ⟨rfl, rfl⟩

/-- C6: starting from the empty mapping, every save_config call of a
sequence whose (guild, message, role) triples are pairwise distinct
succeeds, and the lookup of each triple in the resulting state returns
exactly the binding that was added for it. -/
theorem C6_distinct_adds_succeed_and_lookup (calls : List (Nat × Nat × ButtonCfg))
    (hnd : (calls.map (fun e => (e.1, e.2.1, e.2.2.role_id))).Nodup) :
    addAll calls (FileState.stored []) =
      Except.ok (FileState.stored (buildConfig calls [])) ∧
    ∀ e ∈ calls, lookup (buildConfig calls []) e.1 e.2.1 e.2.2.role_id = some e.2.2 := by
  refine ⟨addAll_stored calls [], fun e he => ?_⟩
  rw [lookup, lookupList_buildConfig]
  have hempty : lookupList [] (toString e.1) (toString e.2.1) = [] := rfl
  rw [hempty, List.nil_append, List.find?_map]
  have hfind : (calls.filter
      (fun x => toString x.1 == toString e.1 && toString x.2.1 == toString e.2.1)).find?
      ((fun b => b.role_id == e.2.2.role_id) ∘ (fun x => x.2.2)) = some e := by
    apply find?_eq_of_unique
    · exact List.mem_filter.mpr ⟨he, by simp⟩
    · simp [Function.comp]
    · intro x hx hpx
      have hx' := List.mem_filter.mp hx
      have hkey := hx'.2
      simp only [Bool.and_eq_true, beq_iff_eq] at hkey
      have hg : x.1 = e.1 := toString_nat_injective hkey.1
      have hm : x.2.1 = e.2.1 := toString_nat_injective hkey.2
      simp only [Function.comp, beq_iff_eq] at hpx
      have htr : (fun y : Nat × Nat × ButtonCfg => (y.1, y.2.1, y.2.2.role_id)) x =
          (fun y : Nat × Nat × ButtonCfg => (y.1, y.2.1, y.2.2.role_id)) e := by
        simp [hg, hm, hpx]
      exact List.inj_on_of_nodup_map hnd hx'.1 he htr
  rw [hfind]
  rfl

/-- C6 witness: two adds with distinct triples (the same role on two
different messages) from the empty mapping, and the lookup of the first. -/
theorem C6_witness :
    addAll [(1, 2, { role_id := 3, emoji := "🔘", colour := "red" }),
            (1, 5, { role_id := 3, emoji := "⭐", colour := "green" })]
        (FileState.stored []) =
      Except.ok (FileState.stored
        (buildConfig [(1, 2, { role_id := 3, emoji := "🔘", colour := "red" }),
                      (1, 5, { role_id := 3, emoji := "⭐", colour := "green" })] [])) ∧
    lookup (buildConfig [(1, 2, { role_id := 3, emoji := "🔘", colour := "red" }),
                         (1, 5, { role_id := 3, emoji := "⭐", colour := "green" })] [])
        1 2 3 = some { role_id := 3, emoji := "🔘", colour := "red" } := by
  have h := C6_distinct_adds_succeed_and_lookup
    [(1, 2, { role_id := 3, emoji := "🔘", colour := "red" }),
     (1, 5, { role_id := 3, emoji := "⭐", colour := "green" })] (by decide)
  exact ⟨h.1, h.2 (1, 2, { role_id := 3, emoji := "🔘", colour := "red" }) (by decide)⟩

/-- C7 counterexample: the claim fails on the code. The attach command
passes the raw operator colour string to save_config, so the program can
produce a persisted state holding colour "Pink"; loading that state fails
(getattr has no such ButtonStyle member), so saving and then loading does
not yield an identical mapping for every state the program itself saves. -/
theorem C7_counterexample_unloadable_save :
    reaction_role_save 1 2 3 "🔘" "Pink" FileState.absent =
      Except.ok (FileState.stored
        [("1", [("2", [{ role_id := 3, emoji := "🔘", colour := "Pink" }])])]) ∧
    ReactionRole.load_config (FileState.stored
        [("1", [("2", [{ role_id := 3, emoji := "🔘", colour := "Pink" }])])]) =
      Except.error () := ⟨rfl, rfl⟩

/-- C7 amended: for every persisted configuration whose colour strings all
name ButtonStyle members and whose message keys are numeric (which holds for
every state saved with the four default colour names), loading succeeds and
reproduces the saved mapping exactly: one view per message in guild order,
keyed by the numeric message id, whose buttons carry the same role_id, the
same emoji and the style named by the same colour, pointwise and in order. -/
theorem C7_wellformed_roundtrip (c : Config)
    (hc : colours_ok c = true) (hk : keys_ok c = true) :
    ∃ out, ReactionRole.load_config (FileState.stored c) = Except.ok out ∧
      List.Forall₂ msgMatches ((c.map (fun g => g.2)).flatten) out :=
  load_guilds_ok c hc hk

/-- C7 witness: the round trip at a concrete well-formed saved state. -/
theorem C7_witness :
    ∃ out, ReactionRole.load_config (FileState.stored
        [("1", [("2", [{ role_id := 3, emoji := "🔘", colour := "red" }])])]) =
      Except.ok out ∧
      List.Forall₂ msgMatches
        (([("1", [("2", [{ role_id := 3, emoji := "🔘", colour := "red" }])])].map
          (fun g => g.2)).flatten) out :=
  C7_wellformed_roundtrip
    [("1", [("2", [{ role_id := 3, emoji := "🔘", colour := "red" }])])]
    (by decide) (by decide)

/-- C8: with no persisted state file, load registers no views (the cog
starts with no registered views), and a first save starts from the empty
mapping and succeeds, producing the singleton configuration holding just the
new binding under its guild and message keys. -/
theorem C8_absent_file_defaults :
    ReactionRole.load_config FileState.absent = Except.ok [] ∧
    ∀ (guild_id message_id : Nat) (b : ButtonCfg),
      ReactionRole.save_config guild_id message_id b FileState.absent =
        Except.ok (FileState.stored
          [(toString guild_id, [(toString message_id, [b])])]) := by
  refine ⟨rfl, fun g m b => ?_⟩
  simp [ReactionRole.save_config, save_step, dictEnsure, dictContains, dictGet, dictSet]

/-- C9: frame property of save_config: on any parsed state the call
succeeds with the save_step update, which maps every guild/message key pair
other than (str(guild_id), str(message_id)) to exactly the entry list it
held before, and maps (str(guild_id), str(message_id)) to its prior list
(empty if the guild or message key was absent) with the new button appended
as the last element. -/
theorem C9_save_config_frame (c : Config) (guild_id message_id : Nat) (b : ButtonCfg) :
    ReactionRole.save_config guild_id message_id b (FileState.stored c) =
      Except.ok (FileState.stored
        (save_step (toString guild_id) (toString message_id) b c)) ∧
    (∀ g' m' : String, ¬(g' = toString guild_id ∧ m' = toString message_id) →
      lookupList (save_step (toString guild_id) (toString message_id) b c) g' m' =
        lookupList c g' m') ∧
    lookupList (save_step (toString guild_id) (toString message_id) b c)
        (toString guild_id) (toString message_id) =
      lookupList c (toString guild_id) (toString message_id) ++ [b] := by
  refine ⟨rfl, fun g' m' h => ?_, ?_⟩
  · rw [lookupList_save_step, if_neg h]
  · rw [lookupList_save_step, if_pos ⟨rfl, rfl⟩]

/-- C9 witness: the frame property applied at a concrete state with two
guilds, writing into the first and observing the second unchanged. -/
theorem C9_witness :
    lookupList (save_step (toString 1) (toString 2)
        { role_id := 5, emoji := "🔘", colour := "red" }
        [("1", [("2", [{ role_id := 3, emoji := "⭐", colour := "green" }])]),
         ("7", [("8", [{ role_id := 9, emoji := "✅", colour := "blurple" }])])]) "7" "8" =
      lookupList
        [("1", [("2", [{ role_id := 3, emoji := "⭐", colour := "green" }])]),
         ("7", [("8", [{ role_id := 9, emoji := "✅", colour := "blurple" }])])] "7" "8" ∧
    lookupList (save_step (toString 1) (toString 2)
        { role_id := 5, emoji := "🔘", colour := "red" }
        [("1", [("2", [{ role_id := 3, emoji := "⭐", colour := "green" }])]),
         ("7", [("8", [{ role_id := 9, emoji := "✅", colour := "blurple" }])])])
        (toString 1) (toString 2) =
      lookupList
        [("1", [("2", [{ role_id := 3, emoji := "⭐", colour := "green" }])]),
         ("7", [("8", [{ role_id := 9, emoji := "✅", colour := "blurple" }])])]
        (toString 1) (toString 2) ++ [{ role_id := 5, emoji := "🔘", colour := "red" }] := by
  have h := C9_save_config_frame
    [("1", [("2", [{ role_id := 3, emoji := "⭐", colour := "green" }])]),
     ("7", [("8", [{ role_id := 9, emoji := "✅", colour := "blurple" }])])]
    1 2 { role_id := 5, emoji := "🔘", colour := "red" }
  exact ⟨h.2.1 "7" "8" (by decide), h.2.2⟩

/-- C10: every ReactionRoleButton is constructed with custom_id equal to
str(role_id), so the trigger identifier is the decimal string of the role
the button toggles; two buttons for the same role on the same message have
identical custom_id whatever their emoji and colour; and the callback
decision dispatches on exactly the stored role id. -/
theorem C10_custom_id_is_role_id :
    (∀ (role_id : Nat) (emoji : String) (colour : ButtonStyle),
      (ReactionRoleButton.init role_id emoji colour).custom_id = toString role_id) ∧
    (∀ (role_id : Nat) (e1 e2 : String) (c1 c2 : ButtonStyle),
      (ReactionRoleButton.init role_id e1 c1).custom_id =
        (ReactionRoleButton.init role_id e2 c2).custom_id) ∧
    (∀ (role_id : Nat) (emoji : String) (colour : ButtonStyle) (user_roles : List Nat),
      callback_decide (ReactionRoleButton.init role_id emoji colour).role_id user_roles =
        callback_decide role_id user_roles) :=
  ⟨fun _ _ _ => rfl, fun _ _ _ _ _ => rfl, fun _ _ _ _ => rfl⟩
